import Mathlib

/-
Verification of the spreadsheet engine in src/excel_mcp_server/excel_library.py.

The library delegates cell storage and address resolution to openpyxl; the
embedding below models the library operations together with the documented
behaviour of the openpyxl calls they make:
  * a worksheet is a sparse map from (row, column) to cells (1-indexed);
  * worksheet[range_string] parses the reference with range_boundaries, which
    records the two endpoints exactly as written (no swapping), and returns a
    tuple of row tuples for a colon form, or a bare Cell for a single-cell
    form (a bare Cell is not iterable);
  * assigning cell.font replaces the whole font object;
  * load_workbook(data_only=True) shows, for a formula cell, the last cached
    computed value if one is stored and None otherwise;
  * worksheet.delete_rows(1, max_row) removes the rows 1..max_row;
  * persisting (workbook.save) is the last step of every operation and is
    modelled as an atomic replacement of the on-disk container.
Deviations are noted where they occur: dollar-sign prefixes, row index 0 and
column-band / row-band references (accepted by openpyxl with degenerate
behaviour, unused by every operation contract considered here) are treated as
parse errors; the metadata "range" string of read results is not modelled.
The disk is modelled as the container at the single path an operation
addresses: none when the file does not exist.
-/

namespace XSpread

/-- A plain (non-formula) cell value: number, text or boolean. -/
inductive PlainVal where
  | num (n : Int)
  | str (s : String)
  | boolean (b : Bool)
  deriving DecidableEq, Repr

/-- A cell value: empty, a plain value, or formula text together with the
last cached computed value (present only if some external evaluator stored
one in the container). -/
inductive CellVal where
  | empty
  | plain (v : PlainVal)
  | formula (text : String) (cached : Option PlainVal)
  deriving DecidableEq, Repr

/-- A font object, as built by openpyxl Font(**kwargs): fields not passed
stay at their defaults. Assigning a cell font replaces the previous font
object wholesale. -/
structure Font where
  bold : Bool := false
  italic : Bool := false
  size : Option Nat := none
  color : Option String := none
  deriving DecidableEq, Repr

/-- Per-cell style state: the font object, the solid background fill color,
and the number-format string. Each is independently absent until set. -/
structure CellStyle where
  font : Option Font := none
  fill : Option String := none
  numberFormat : Option String := none
  deriving DecidableEq, Repr

/-- A cell: a value slot plus style state. -/
structure Cell where
  val : CellVal := CellVal.empty
  style : CellStyle := {}
  deriving DecidableEq, Repr

/-- A coordinate: (row, column), both 1-indexed. -/
abbrev Pos := Nat × Nat

/-- A chart object placed on a worksheet (create_chart, lines 421-487). -/
structure Chart where
  chartType : String
  dataRange : String
  title : Option String
  anchorPos : String
  deriving DecidableEq, Repr

/-- A worksheet: a name, a sparse association list of cells keyed by
coordinate, and the charts placed on it. -/
structure Worksheet where
  name : String
  cells : List (Pos × Cell) := []
  charts : List Chart := []
  deriving DecidableEq, Repr

/-- A workbook: the ordered sheets and the index of the active sheet. -/
structure Workbook where
  sheets : List Worksheet := []
  active : Nat := 0
  deriving DecidableEq, Repr

/-- Look up the cell stored at a coordinate. -/
def lookupCell : List (Pos × Cell) → Pos → Option Cell
  | [], _ => none
  | (q, c) :: rest, p => if q = p then some c else lookupCell rest p

/-- The cell at a coordinate, materialising an empty cell when absent, as
openpyxl does on any cell access. -/
def getCellD (cs : List (Pos × Cell)) (p : Pos) : Cell :=
  (lookupCell cs p).getD {}

/-- Replace the cell at a coordinate in place, or append a fresh entry built
from an empty cell when the coordinate was unoccupied. -/
def updateCell : List (Pos × Cell) → Pos → (Cell → Cell) → List (Pos × Cell)
  | [], p, f => [(p, f {})]
  | (q, c) :: rest, p, f =>
      if q = p then (q, f c) :: rest else (q, c) :: updateCell rest p f

/-- Greatest row index among the stored cells, at least 1 (openpyxl max_row
is 1 for an empty sheet). -/
def maxRowAux (cs : List (Pos × Cell)) : Nat :=
  cs.foldl (fun m q => max m q.1.1) 1

/-- Greatest column index among the stored cells, at least 1. -/
def maxColAux (cs : List (Pos × Cell)) : Nat :=
  cs.foldl (fun m q => max m q.1.2) 1

def Worksheet.maxRow (ws : Worksheet) : Nat := maxRowAux ws.cells

def Worksheet.maxCol (ws : Worksheet) : Nat := maxColAux ws.cells

/-- openpyxl worksheet.delete_rows(idx, amount): removes the rows
idx..idx+amount-1 and shifts the rows above them down by amount. -/
def deleteRows (cs : List (Pos × Cell)) (idx amount : Nat) : List (Pos × Cell) :=
  (cs.filter fun pc => decide (pc.1.1 < idx) || decide (idx + amount ≤ pc.1.1)).map
    fun pc =>
      if idx + amount ≤ pc.1.1 then ((pc.1.1 - amount, pc.1.2), pc.2) else pc

/-- The value shown for a cell when the container is decoded with
data_only=True (read_excel_file, line 60): a formula cell shows its cached
computed value when one is present and None otherwise; no formula is ever
evaluated. -/
def readVal : CellVal → Option PlainVal
  | CellVal.empty => none
  | CellVal.plain v => some v
  | CellVal.formula _ cached => cached

/-- The value read back from a worksheet coordinate. -/
def readCellVal (ws : Worksheet) (p : Pos) : Option PlainVal :=
  readVal (getCellD ws.cells p).val

/-- Whether a string begins with the formula marker. -/
def startsWithEq (s : String) : Bool :=
  match s.data with
  | c :: _ => decide (c = Char.ofNat 61)
  | [] => false

/-- openpyxl value assignment: a string beginning with the formula marker is
stored as a formula-typed value (with no cached result); None empties the
slot. -/
def coerceValue : Option PlainVal → CellVal
  | none => CellVal.empty
  | some (PlainVal.str s) =>
      if startsWithEq s then CellVal.formula s none else CellVal.plain (PlainVal.str s)
  | some v => CellVal.plain v

/-- Set a cell value, keeping the style state. -/
def setCellValue (cs : List (Pos × Cell)) (p : Pos) (v : Option PlainVal) :
    List (Pos × Cell) :=
  updateCell cs p fun c => { c with val := coerceValue v }

/- ------------------------------------------------------------------ -/
/- Address resolution: the subset of openpyxl range_boundaries exercised
   by the operations (single cell "A1" and rectangle "A1:C10").          -/
/- ------------------------------------------------------------------ -/

def isUpperCh (c : Char) : Bool := decide (65 ≤ c.toNat) && decide (c.toNat ≤ 90)

def isDigitCh (c : Char) : Bool := decide (48 ≤ c.toNat) && decide (c.toNat ≤ 57)

/-- Column letters to 1-based index, base 26 with no zero digit
(A=1 .. Z=26, AA=27 ..). -/
def colIndexOf (cs : List Char) : Nat :=
  cs.foldl (fun a c => a * 26 + (c.toNat - 64)) 0

def digitsVal (cs : List Char) : Nat :=
  cs.foldl (fun a c => a * 10 + (c.toNat - 48)) 0

/-- Parse one cell coordinate "C7" into (column, row). Following the
openpyxl grammar: one to three upper-case letters then digits. Row index 0
and dollar signs are treated as parse errors here (deviation noted in the
header comment). -/
def parseCoordChars (cs : List Char) : Option (Nat × Nat) :=
  let letters := cs.takeWhile isUpperCh
  let rest := cs.dropWhile isUpperCh
  if letters.length = 0 || decide (3 < letters.length) || rest.length = 0
      || !(rest.all isDigitCh) then none
  else
    let row := digitsVal rest
    if row = 0 then none else some (colIndexOf letters, row)

def parseCellCoord (s : String) : Option (Nat × Nat) := parseCoordChars s.data

/-- Split a reference at the colons, as splitting on the range separator
does. -/
def splitColon : List Char → List (List Char)
  | [] => [[]]
  | c :: rest =>
      if c = Char.ofNat 58 then [] :: splitColon rest
      else
        match splitColon rest with
        | [] => [[c]]
        | g :: gs => (c :: g) :: gs

/-- The coordinates yielded by iter_rows(min_row=r1, max_row=r2,
min_col=c1, max_col=c2): python range iteration, empty whenever an end
bound lies before its start bound (no swapping). -/
def iterRowsPos (r1 r2 c1 c2 : Nat) : List (List Pos) :=
  (List.range' r1 (r2 + 1 - r1)).map fun r =>
    (List.range' c1 (c2 + 1 - c1)).map fun c => (r, c)

/-- What worksheet[key] returns: a bare Cell object for a single-cell
reference, or a tuple of row tuples for a colon form. -/
inductive RangeCells where
  | single (p : Pos)
  | rows (rs : List (List Pos))
  deriving DecidableEq, Repr

/-- Model of worksheet[key] (openpyxl Worksheet.__getitem__ via
range_boundaries): the endpoints are taken exactly as written — an
end-before-start reference is not rejected and not swapped, it simply
yields empty row tuples through iter_rows. -/
def getItem (s : String) : Except String RangeCells :=
  match splitColon s.data with
  | [a] =>
      match parseCoordChars a with
      | some (c, r) => Except.ok (RangeCells.single (r, c))
      | none => Except.error "not a valid coordinate or range"
  | [a, b] =>
      match parseCoordChars a, parseCoordChars b with
      | some (c1, r1), some (c2, r2) =>
          Except.ok (RangeCells.rows (iterRowsPos r1 r2 c1 c2))
      | _, _ => Except.error "not a valid coordinate or range"
  | _ => Except.error "not a valid coordinate or range"

/- ------------------------------------------------------------------ -/
/- Formatting (format_cells, lines 348-419).                           -/
/- ------------------------------------------------------------------ -/

/-- The recognised format options, each optional
(format_cells, lines 372-400). -/
structure FormatOptions where
  bold : Option Bool := none
  italic : Option Bool := none
  font_size : Option Nat := none
  font_color : Option String := none
  background_color : Option String := none
  number_format : Option String := none
  deriving DecidableEq, Repr

/-- Python truthiness of an optional boolean option. -/
def truthyB (o : Option Bool) : Bool := o.getD false

/-- Python truthiness of an optional numeric option (0 is falsy). -/
def truthyN (o : Option Nat) : Bool := !(o.getD 0 == 0)

/-- Python truthiness of an optional string option (the empty string is
falsy). -/
def truthyS (o : Option String) : Bool := !(decide (o.getD "" = ""))

/-- The font object format_cells builds from the truthy font options
(lines 372-383), or none when no font option is present. -/
def fontFromOptions (o : FormatOptions) : Option Font :=
  if truthyB o.bold || truthyB o.italic || truthyN o.font_size || truthyS o.font_color then
    some { bold := truthyB o.bold
           italic := truthyB o.italic
           size := if truthyN o.font_size then o.font_size else none
           color := if truthyS o.font_color then o.font_color else none }
  else none

/-- The solid fill format_cells builds from a truthy background_color
(lines 386-390). -/
def fillFromOptions (o : FormatOptions) : Option String :=
  if truthyS o.background_color then o.background_color else none

/-- The per-cell effect of the formatting loop (lines 393-400): the font
object and the fill are each replaced wholesale when the options produced
one, the number format is replaced when given; everything else is kept. -/
def applyFormatCell (o : FormatOptions) (c : Cell) : Cell :=
  { c with style :=
      { font := match fontFromOptions o with
                | some f => some f
                | none => c.style.font
        fill := match fillFromOptions o with
                | some b => some b
                | none => c.style.fill
        numberFormat :=
          if truthyS o.number_format then o.number_format
          else c.style.numberFormat } }

/-- Apply a cell transformation at every coordinate of a resolved range in
iteration order, materialising missing cells as openpyxl does. -/
def applyRange (f : Cell → Cell) : List Pos → List (Pos × Cell) → List (Pos × Cell)
  | [], cs => cs
  | p :: ps, cs => applyRange f ps (updateCell cs p f)

/- ------------------------------------------------------------------ -/
/- Reading (read_excel_file, lines 43-104).                            -/
/- ------------------------------------------------------------------ -/

/-- The value rows iter_rows(values_only=True) yields: the bounding
rectangle rows 1..max_row, columns 1..max_column, missing cells as None. -/
def iterRowsVals (ws : Worksheet) : List (List (Option PlainVal)) :=
  (iterRowsPos 1 ws.maxRow 1 ws.maxCol).map fun row => row.map (readCellVal ws)

/-- The no-range read loop (lines 82-85): walk every row of the bounding
rectangle and append those with at least one non-empty cell. -/
def readAllRows (ws : Worksheet) : List (List (Option PlainVal)) :=
  (iterRowsVals ws).foldl
    (fun acc row => if row.any Option.isSome then acc ++ [row] else acc) []

/- ------------------------------------------------------------------ -/
/- Workbook access helpers.                                            -/
/- ------------------------------------------------------------------ -/

def sheetNames (wb : Workbook) : List String := wb.sheets.map Worksheet.name

/-- First sheet carrying a name, with its position (sheet_name in
workbook.sheetnames followed by workbook[sheet_name]). -/
def lookupSheetIdx (n : String) : List Worksheet → Option (Nat × Worksheet)
  | [] => none
  | ws :: rest =>
      if ws.name = n then some (0, ws)
      else (lookupSheetIdx n rest).map fun p => (p.1 + 1, p.2)

def getSheetByName (n : String) (wb : Workbook) : Option Worksheet :=
  (lookupSheetIdx n wb.sheets).map fun p => p.2

/-- Replace the sheet at an index. -/
def modifyAt (f : Worksheet → Worksheet) : Nat → List Worksheet → List Worksheet
  | _, [] => []
  | 0, ws :: rest => f ws :: rest
  | n + 1, ws :: rest => ws :: modifyAt f n rest

/-- A fresh openpyxl workbook: one default sheet named "Sheet", active. -/
def newWorkbook : Workbook := { sheets := [{ name := "Sheet" }], active := 0 }

/- ------------------------------------------------------------------ -/
/- The uniform operation boundary (try/except of every operation).     -/
/- ------------------------------------------------------------------ -/

/-- The uniform result record: success with an operation-specific payload,
or success false with an error message. -/
structure OpResult (α : Type) where
  success : Bool
  error : Option String
  payload : Option α
  deriving DecidableEq, Repr

/-- The operation boundary: the body either reaches the final save (the
returned disk) and produces its payload, or raises — every raise is caught
by the except clause and reported, leaving the previous on-disk container
in place (workbook.save is the last step of every operation body). -/
def finish {α : Type} (disk : Option Workbook) :
    Except String (α × Option Workbook) → OpResult α × Option Workbook
  | Except.ok (a, d) => ({ success := true, error := none, payload := some a }, d)
  | Except.error e => ({ success := false, error := some e, payload := none }, disk)

/- ------------------------------------------------------------------ -/
/- Operation bodies.                                                   -/
/- ------------------------------------------------------------------ -/

/-- Payload of a successful read (lines 89-96; the metadata range string is
not modelled). -/
structure ReadOk where
  data : List (List (Option PlainVal))
  sheetName : String
  rows : Nat
  columns : Nat
  deriving DecidableEq, Repr

/-- Worksheet selection of read_excel_file (lines 63-69): the named sheet,
or the active sheet when no name is given. -/
def sheetSelect (wb : Workbook) : Option String → Except String (Worksheet × String)
  | some n =>
      match getSheetByName n wb with
      | some ws => Except.ok (ws, n)
      | none => Except.error "Worksheet not found"
  | none =>
      match wb.sheets.get? wb.active with
      | some ws => Except.ok (ws, ws.name)
      | none => Except.error "Workbook has no active sheet"

/-- The data part of read_excel_file (lines 72-85). With a range argument
the code distinguishes a tuple from a bare Cell; in the bare-Cell case the
comprehension iterates over the Cell object itself, which raises TypeError
(a Cell is not iterable). -/
def rangeData (ws : Worksheet) : Option String → Except String (List (List (Option PlainVal)))
  | some rng =>
      match getItem rng with
      | Except.ok (RangeCells.rows rs) =>
          Except.ok (rs.map fun row => row.map (readCellVal ws))
      | Except.ok (RangeCells.single _) =>
          Except.error "TypeError: Cell object is not iterable"
      | Except.error e => Except.error e
  | none => Except.ok (readAllRows ws)

def read_body (disk : Option Workbook) (sheetName cellRange : Option String) :
    Except String (ReadOk × Option Workbook) :=
  match disk with
  | none => Except.error "File not found"
  | some wb =>
      match sheetSelect wb sheetName with
      | Except.error e => Except.error e
      | Except.ok (ws, sname) =>
          match rangeData ws cellRange with
          | Except.error e => Except.error e
          | Except.ok data =>
              Except.ok ({ data := data, sheetName := sname, rows := data.length,
                           columns := (data.headD []).length }, disk)

/-- Payload of a successful write (lines 160-167). -/
structure WriteOk where
  sheetName : String
  rowsWritten : Nat
  columnsWritten : Nat
  headersAdded : Bool
  deriving DecidableEq, Repr

/-- Write one row of values starting at a column (write_excel_file,
lines 152-154 inner loop; also the header loop, lines 146-149). -/
def writeRowVals (r c : Nat) : List (Option PlainVal) → List (Pos × Cell) → List (Pos × Cell)
  | [], cs => cs
  | v :: vs, cs => writeRowVals r (c + 1) vs (setCellValue cs (r, c) v)

/-- Write the data rows starting at a row (lines 152-154 outer loop). -/
def writeDataRows (r : Nat) : List (List (Option PlainVal)) → List (Pos × Cell) → List (Pos × Cell)
  | [], cs => cs
  | row :: rows, cs => writeDataRows (r + 1) rows (writeRowVals r 1 row cs)

/-- Headers (when given) go to row 1 and the data rows follow from row 2;
without headers the data rows start at row 1 (lines 144-154). -/
def writeAllCells (headers : Option (List String)) (data : List (List (Option PlainVal)))
    (cs : List (Pos × Cell)) : List (Pos × Cell) :=
  match headers with
  | some hs => writeDataRows 2 data (writeRowVals 1 1 (hs.map fun h => some (PlainVal.str h)) cs)
  | none => writeDataRows 1 data cs

/-- The workbook write_excel_file starts from (lines 124-130): the existing
container when the path exists; otherwise a fresh workbook, whose default
"Sheet" is removed when a sheet name was supplied. -/
def baseWorkbook : Option Workbook → Option String → Workbook
  | some wb, _ => wb
  | none, some _ => { sheets := [], active := 0 }
  | none, none => newWorkbook

def mkWriteOk (n : String) (data : List (List (Option PlainVal)))
    (headers : Option (List String)) : WriteOk :=
  { sheetName := n, rowsWritten := data.length,
    columnsWritten := (data.headD []).length, headersAdded := headers.isSome }

/-- write_excel_file body (lines 106-167). Only the branch given an
existing sheet NAME clears the previous row span (lines 133-137,
delete_rows(1, max_row)); the no-name branch writes over the active sheet
without clearing (lines 140-142). -/
def write_body (disk : Option Workbook) (data : List (List (Option PlainVal)))
    (sheetName : Option String) (headers : Option (List String)) :
    Except String (WriteOk × Option Workbook) :=
  if data.isEmpty then Except.error "No data provided to write"
  else
    let wb := baseWorkbook disk sheetName
    match sheetName with
    | some n =>
        match lookupSheetIdx n wb.sheets with
        | some (i, ws) =>
            let ws2 : Worksheet :=
              { ws with cells := writeAllCells headers data (deleteRows ws.cells 1 ws.maxRow) }
            Except.ok (mkWriteOk n data headers,
              some { wb with sheets := modifyAt (fun _ => ws2) i wb.sheets })
        | none =>
            let ws2 : Worksheet := { name := n, cells := writeAllCells headers data [] }
            Except.ok (mkWriteOk n data headers,
              some { wb with sheets := wb.sheets ++ [ws2] })
    | none =>
        match wb.sheets.get? wb.active with
        | some ws =>
            let ws2 : Worksheet := { ws with cells := writeAllCells headers data ws.cells }
            Except.ok (mkWriteOk ws.name data headers,
              some { wb with sheets := modifyAt (fun _ => ws2) wb.active wb.sheets })
        | none => Except.error "Workbook has no active sheet"

/-- Per-sheet record of get_worksheet_info (lines 193-201). -/
structure SheetInfo where
  name : String
  maxRow : Nat
  maxCol : Nat
  isActive : Bool
  deriving DecidableEq, Repr

structure InfoOk where
  totalWorksheets : Nat
  worksheets : List SheetInfo
  deriving DecidableEq, Repr

def info_body (disk : Option Workbook) : Except String (InfoOk × Option Workbook) :=
  match disk with
  | none => Except.error "File not found"
  | some wb =>
      Except.ok ({ totalWorksheets := wb.sheets.length,
                   worksheets := wb.sheets.enum.map fun iw =>
                     { name := iw.2.name, maxRow := iw.2.maxRow, maxCol := iw.2.maxCol,
                       isActive := decide (iw.1 = wb.active) } }, disk)

structure AddOk where
  sheetName : String
  deriving DecidableEq, Repr

/-- add_worksheet body (lines 219-248): an exact, case-sensitive duplicate
name check, then an appended empty sheet. -/
def add_body (disk : Option Workbook) (n : String) :
    Except String (AddOk × Option Workbook) :=
  match disk with
  | none => Except.error "File not found"
  | some wb =>
      if n ∈ sheetNames wb then Except.error "Worksheet already exists"
      else Except.ok ({ sheetName := n },
        some { wb with sheets := wb.sheets ++ [{ name := n }] })

structure UpdateOk where
  sheetName : String
  cell : String
  deriving DecidableEq, Repr

/-- update_cell body (lines 257-299). worksheet[cell] = value assigns
through Worksheet.__setitem__, which writes the value attribute of
worksheet[cell]; a colon reference yields a tuple there and raises. -/
def update_body (disk : Option Workbook) (n cellRef : String) (v : Option PlainVal) :
    Except String (UpdateOk × Option Workbook) :=
  match disk with
  | none => Except.error "File not found"
  | some wb =>
      match lookupSheetIdx n wb.sheets with
      | none => Except.error "Worksheet not found"
      | some (i, ws) =>
          match getItem cellRef with
          | Except.error e => Except.error e
          | Except.ok (RangeCells.rows _) =>
              Except.error "AttributeError: tuple object has no attribute value"
          | Except.ok (RangeCells.single p) =>
              let ws2 : Worksheet := { ws with cells := setCellValue ws.cells p v }
              Except.ok ({ sheetName := n, cell := cellRef },
                some { wb with sheets := modifyAt (fun _ => ws2) i wb.sheets })

structure FormulaOk where
  sheetName : String
  cell : String
  formula : String
  deriving DecidableEq, Repr

/-- apply_formula normalisation (lines 318-319): prepend the formula marker
when absent. -/
def normalizeFormula (f : String) : String :=
  if startsWithEq f then f else "=" ++ f

/-- apply_formula body (lines 301-346): the normalised text is stored as a
string value, which openpyxl types as a formula; nothing is evaluated. -/
def formula_body (disk : Option Workbook) (n cellRef f : String) :
    Except String (FormulaOk × Option Workbook) :=
  match disk with
  | none => Except.error "File not found"
  | some wb =>
      match lookupSheetIdx n wb.sheets with
      | none => Except.error "Worksheet not found"
      | some (i, ws) =>
          match getItem cellRef with
          | Except.error e => Except.error e
          | Except.ok (RangeCells.rows _) =>
              Except.error "AttributeError: tuple object has no attribute value"
          | Except.ok (RangeCells.single p) =>
              let ws2 : Worksheet :=
                { ws with cells :=
                    setCellValue ws.cells p (some (PlainVal.str (normalizeFormula f))) }
              Except.ok ({ sheetName := n, cell := cellRef, formula := normalizeFormula f },
                some { wb with sheets := modifyAt (fun _ => ws2) i wb.sheets })

structure FormatOk where
  sheetName : String
  range : String
  options : FormatOptions
  deriving DecidableEq, Repr

/-- format_cells body (lines 348-419): resolve the range, then apply the
formatting to every cell of the rectangle in iteration order; the save
comes after the whole loop. -/
def format_body (disk : Option Workbook) (n rng : String) (o : FormatOptions) :
    Except String (FormatOk × Option Workbook) :=
  match disk with
  | none => Except.error "File not found"
  | some wb =>
      match lookupSheetIdx n wb.sheets with
      | none => Except.error "Worksheet not found"
      | some (i, ws) =>
          match getItem rng with
          | Except.error e => Except.error e
          | Except.ok (RangeCells.single _) =>
              Except.error "TypeError: Cell object is not iterable"
          | Except.ok (RangeCells.rows rs) =>
              let ws2 : Worksheet :=
                { ws with cells := applyRange (applyFormatCell o) rs.flatten ws.cells }
              Except.ok ({ sheetName := n, range := rng, options := o },
                some { wb with sheets := modifyAt (fun _ => ws2) i wb.sheets })

structure ChartOk where
  sheetName : String
  dataRange : String
  chartType : String
  anchorPos : String
  deriving DecidableEq, Repr

/-- create_chart body (lines 421-487): supported chart types, sheet lookup,
Reference parsing of the data range, default anchor "E5". -/
def chart_body (disk : Option Workbook) (n dataRange chartType : String)
    (title position : Option String) : Except String (ChartOk × Option Workbook) :=
  match disk with
  | none => Except.error "File not found"
  | some wb =>
      if chartType ∈ ["line", "bar", "pie", "scatter"] then
        match lookupSheetIdx n wb.sheets with
        | none => Except.error "Worksheet not found"
        | some (i, ws) =>
            match getItem dataRange with
            | Except.error e => Except.error e
            | Except.ok _ =>
                let ch : Chart :=
                  { chartType := chartType, dataRange := n ++ "!" ++ dataRange,
                    title := title, anchorPos := position.getD "E5" }
                let ws2 : Worksheet := { ws with charts := ws.charts ++ [ch] }
                Except.ok ({ sheetName := n, dataRange := dataRange,
                             chartType := chartType, anchorPos := position.getD "E5" },
                  some { wb with sheets := modifyAt (fun _ => ws2) i wb.sheets })
      else Except.error "Unsupported chart type"

/- ------------------------------------------------------------------ -/
/- The operations (each body wrapped by the try/except boundary).      -/
/- ------------------------------------------------------------------ -/

def read_excel_file (disk : Option Workbook) (sheetName cellRange : Option String) :
    OpResult ReadOk × Option Workbook :=
  finish disk (read_body disk sheetName cellRange)

def write_excel_file (disk : Option Workbook) (data : List (List (Option PlainVal)))
    (sheetName : Option String) (headers : Option (List String)) :
    OpResult WriteOk × Option Workbook :=
  finish disk (write_body disk data sheetName headers)

def get_worksheet_info (disk : Option Workbook) : OpResult InfoOk × Option Workbook :=
  finish disk (info_body disk)

def add_worksheet (disk : Option Workbook) (n : String) :
    OpResult AddOk × Option Workbook :=
  finish disk (add_body disk n)

def update_cell (disk : Option Workbook) (n cellRef : String) (v : Option PlainVal) :
    OpResult UpdateOk × Option Workbook :=
  finish disk (update_body disk n cellRef v)

def apply_formula (disk : Option Workbook) (n cellRef f : String) :
    OpResult FormulaOk × Option Workbook :=
  finish disk (formula_body disk n cellRef f)

def format_cells (disk : Option Workbook) (n rng : String) (o : FormatOptions) :
    OpResult FormatOk × Option Workbook :=
  finish disk (format_body disk n rng o)

def create_chart (disk : Option Workbook) (n dataRange chartType : String)
    (title position : Option String) : OpResult ChartOk × Option Workbook :=
  finish disk (chart_body disk n dataRange chartType title position)

/- ------------------------------------------------------------------ -/
/- Observation helpers and specification-side definitions.             -/
/- ------------------------------------------------------------------ -/

/-- The style stored at a coordinate of a named sheet of an on-disk
container, when all of container, sheet and cell exist. -/
def styleAt (d : Option Workbook) (n : String) (p : Pos) : Option CellStyle :=
  d.bind fun wb => (getSheetByName n wb).bind fun ws =>
    (lookupCell ws.cells p).map Cell.style

/-- The cell list of a named sheet of an on-disk container. -/
def cellsAt (d : Option Workbook) (n : String) : Option (List (Pos × Cell)) :=
  d.bind fun wb => (getSheetByName n wb).map Worksheet.cells

/-- The sheet names of an on-disk container (empty when no file exists). -/
def namesOnDisk : Option Workbook → List String
  | none => []
  | some wb => sheetNames wb

/-- The no-range read result as the specification words it: every row of
the bounding rectangle that has at least one non-empty cell, in row order,
with every fully-empty row — interior as well as trailing — omitted.
Stated via filter, for comparison with the accumulating loop readAllRows. -/
def specNonEmptyRows (ws : Worksheet) : List (List (Option PlainVal)) :=
  (iterRowsVals ws).filter fun row => row.any Option.isSome

/-- The uniform result shape of the operation contract: success true with a
payload and no error, or success false with an error message and no
payload. -/
def uniformShape {α : Type} (r : OpResult α) : Prop :=
  (r.success = true ∧ r.error = none ∧ r.payload.isSome = true) ∨
  (r.success = false ∧ r.error.isSome = true ∧ r.payload = none)

/- ------------------------------------------------------------------ -/
/- Concrete containers used by counterexamples and witnesses.          -/
/- ------------------------------------------------------------------ -/

/-- A sheet "S" with the row A1=1, B1=2, C1=3. -/
def wsRow3 : Worksheet :=
  { name := "S", cells :=
      [((1, 1), { val := CellVal.plain (PlainVal.num 1) }),
       ((1, 2), { val := CellVal.plain (PlainVal.num 2) }),
       ((1, 3), { val := CellVal.plain (PlainVal.num 3) })] }

/-- One sheet "S" with the row A1=1, B1=2, C1=3. -/
def wbRow3 : Workbook := { sheets := [wsRow3], active := 0 }

/-- A sheet "Sheet1" with A1=1 and A2=2. -/
def wsCol2 : Worksheet :=
  { name := "Sheet1", cells :=
      [((1, 1), { val := CellVal.plain (PlainVal.num 1) }),
       ((2, 1), { val := CellVal.plain (PlainVal.num 2) })] }

/-- One sheet "Sheet1" with A1=1 and A2=2. -/
def wbCol2 : Workbook := { sheets := [wsCol2], active := 0 }

/-- A sheet "S": A1 holds a formula with no cached computed value, A2 holds
the number 7. -/
def wsFormula : Worksheet :=
  { name := "S", cells :=
      [((1, 1), { val := CellVal.formula "=SUM(B1:B2)" none }),
       ((2, 1), { val := CellVal.plain (PlainVal.num 7) })] }

/-- One sheet "S": A1 holds a formula with no cached computed value, A2
holds the number 7. -/
def wbFormula : Workbook := { sheets := [wsFormula], active := 0 }

/-- One sheet "S" with the single cell A1=5. -/
def wbOne5 : Workbook :=
  { sheets := [{ name := "S", cells :=
      [((1, 1), { val := CellVal.plain (PlainVal.num 5) })] }], active := 0 }

/-- The worksheet of wbBold: cell A1 styled bold, no value. -/
def wsBold : Worksheet :=
  { name := "S", cells := [((1, 1), { style := { font := some { bold := true } } })] }

/-- One sheet "S" whose cell A1 already carries a bold font. -/
def wbBold : Workbook := { sheets := [wsBold], active := 0 }

/-- The container after format_cells {bold:=true} and then
format_cells {font_size:=14} on A1:A1 of a fresh sheet "S". -/
def diskAfterBoldThenSize : Option Workbook :=
  (format_cells
    (format_cells (some { sheets := [{ name := "S" }], active := 0 })
      "S" "A1:A1" { bold := some true }).2
    "S" "A1:A1" { font_size := some 14 }).2

/- ------------------------------------------------------------------ -/
/- Helper lemmas: the sparse cell map.                                 -/
/- ------------------------------------------------------------------ -/

theorem lookupCell_updateCell_self (cs : List (Pos × Cell)) (p : Pos) (f : Cell → Cell) :
    lookupCell (updateCell cs p f) p = some (f (getCellD cs p)) := by
  induction cs with
  | nil => simp [updateCell, lookupCell, getCellD]
  | cons qc rest ih =>
      obtain ⟨q, c⟩ := qc
      by_cases h : q = p
      · subst h; simp [updateCell, lookupCell, getCellD]
      · simp [updateCell, lookupCell, getCellD, h, ih]

theorem lookupCell_updateCell_ne (cs : List (Pos × Cell)) (q p : Pos) (f : Cell → Cell)
    (h : q ≠ p) : lookupCell (updateCell cs q f) p = lookupCell cs p := by
  induction cs with
  | nil => simp [updateCell, lookupCell, h]
  | cons qc rest ih =>
      obtain ⟨q2, c⟩ := qc
      by_cases h2 : q2 = q
      · subst h2; simp [updateCell, lookupCell, h]
      · by_cases h3 : q2 = p <;> simp [updateCell, lookupCell, h2, h3, Ne.symm h, ih]

theorem lookupCell_applyRange_not_mem (f : Cell → Cell) (ps : List Pos)
    (cs : List (Pos × Cell)) (p : Pos) (hp : p ∉ ps) :
    lookupCell (applyRange f ps cs) p = lookupCell cs p := by
  induction ps generalizing cs with
  | nil => rfl
  | cons q ps ih =>
      have hq : q ≠ p := fun h => hp (h ▸ List.mem_cons_self q ps)
      have hp2 : p ∉ ps := fun h => hp (List.mem_cons_of_mem q h)
      rw [applyRange, ih _ hp2, lookupCell_updateCell_ne cs q p f hq]

theorem lookupCell_applyRange_mem (f : Cell → Cell) (hf : ∀ c, f (f c) = f c)
    (ps : List Pos) (p : Pos) (hp : p ∈ ps) (cs : List (Pos × Cell)) :
    lookupCell (applyRange f ps cs) p = some (f (getCellD cs p)) := by
  induction ps generalizing cs with
  | nil => cases hp
  | cons q ps ih =>
      by_cases hmem : p ∈ ps
      · rw [applyRange, ih hmem (updateCell cs q f)]
        by_cases hq : q = p
        · subst hq
          unfold getCellD
          rw [lookupCell_updateCell_self]
          simp [hf, getCellD]
        · have : getCellD (updateCell cs q f) p = getCellD cs p := by
            unfold getCellD
            rw [lookupCell_updateCell_ne cs q p f hq]
          rw [this]
      · have hq : q = p := by
          rcases List.mem_cons.mp hp with h | h
          · exact h.symm
          · exact absurd h hmem
        rw [applyRange, lookupCell_applyRange_not_mem f ps _ p hmem, hq,
          lookupCell_updateCell_self]

theorem updateCell_eq_self (cs : List (Pos × Cell)) (p : Pos) (f : Cell → Cell)
    (v : Cell) (hv : lookupCell cs p = some v) (hfix : f v = v) :
    updateCell cs p f = cs := by
  induction cs with
  | nil => simp [lookupCell] at hv
  | cons qc rest ih =>
      obtain ⟨q, c⟩ := qc
      by_cases h : q = p
      · simp only [lookupCell, if_pos h, Option.some.injEq] at hv
        simp only [updateCell, if_pos h, hv, hfix]
      · simp only [lookupCell, if_neg h] at hv
        simp [updateCell, h, ih hv]

theorem applyRange_eq_self (f : Cell → Cell) (ps : List Pos) (cs : List (Pos × Cell))
    (h : ∀ p ∈ ps, ∃ v, lookupCell cs p = some v ∧ f v = v) :
    applyRange f ps cs = cs := by
  induction ps with
  | nil => rfl
  | cons q ps ih =>
      obtain ⟨v, hv, hfix⟩ := h q (List.mem_cons_self q ps)
      rw [applyRange, updateCell_eq_self cs q f v hv hfix]
      exact ih fun p hp => h p (List.mem_cons_of_mem q hp)

theorem applyRange_idem (f : Cell → Cell) (hf : ∀ c, f (f c) = f c)
    (ps : List Pos) (cs : List (Pos × Cell)) :
    applyRange f ps (applyRange f ps cs) = applyRange f ps cs := by
  apply applyRange_eq_self
  intro p hp
  exact ⟨f (getCellD cs p), lookupCell_applyRange_mem f hf ps p hp cs, hf _⟩

theorem applyFormatCell_idem (o : FormatOptions) (c : Cell) :
    applyFormatCell o (applyFormatCell o c) = applyFormatCell o c := by
  unfold applyFormatCell
  cases hf : fontFromOptions o <;> cases hb : fillFromOptions o <;>
    by_cases hn : truthyS o.number_format <;> simp [hf, hb, hn]

/- ------------------------------------------------------------------ -/
/- Helper lemmas: sheet lists.                                         -/
/- ------------------------------------------------------------------ -/

theorem lookupSheetIdx_name (n : String) (l : List Worksheet) (i : Nat) (ws : Worksheet)
    (h : lookupSheetIdx n l = some (i, ws)) : ws.name = n := by
  induction l generalizing i with
  | nil => simp [lookupSheetIdx] at h
  | cons w rest ih =>
      by_cases hw : w.name = n
      · simp only [lookupSheetIdx, if_pos hw, Option.some.injEq, Prod.mk.injEq] at h
        exact h.2 ▸ hw
      · simp only [lookupSheetIdx, if_neg hw, Option.map_eq_some'] at h
        obtain ⟨⟨j, w2⟩, hj, heq⟩ := h
        have h2 : w2 = ws := (Prod.mk.injEq .. ▸ heq).2
        exact ih j (h2 ▸ hj)

theorem lookupSheetIdx_get (n : String) (l : List Worksheet) (i : Nat) (ws : Worksheet)
    (h : lookupSheetIdx n l = some (i, ws)) : l.get? i = some ws := by
  induction l generalizing i with
  | nil => simp [lookupSheetIdx] at h
  | cons w rest ih =>
      by_cases hw : w.name = n
      · simp only [lookupSheetIdx, if_pos hw, Option.some.injEq, Prod.mk.injEq] at h
        rw [← h.1, ← h.2]
        rfl
      · simp only [lookupSheetIdx, if_neg hw, Option.map_eq_some'] at h
        obtain ⟨⟨j, w2⟩, hj, heq⟩ := h
        have h1 : j + 1 = i := (Prod.mk.injEq .. ▸ heq).1
        have h2 : w2 = ws := (Prod.mk.injEq .. ▸ heq).2
        subst h1
        subst h2
        simpa using ih j hj

theorem lookupSheetIdx_modifyAt (n : String) (l : List Worksheet) (i : Nat)
    (ws ws2 : Worksheet) (h : lookupSheetIdx n l = some (i, ws)) (hn : ws2.name = n) :
    lookupSheetIdx n (modifyAt (fun _ => ws2) i l) = some (i, ws2) := by
  induction l generalizing i with
  | nil => simp [lookupSheetIdx] at h
  | cons w rest ih =>
      by_cases hw : w.name = n
      · simp only [lookupSheetIdx, if_pos hw, Option.some.injEq, Prod.mk.injEq] at h
        rw [← h.1]
        simp [modifyAt, lookupSheetIdx, hn]
      · simp only [lookupSheetIdx, if_neg hw, Option.map_eq_some'] at h
        obtain ⟨⟨j, w2⟩, hj, heq⟩ := h
        have h1 : j + 1 = i := (Prod.mk.injEq .. ▸ heq).1
        have h2 : w2 = ws := (Prod.mk.injEq .. ▸ heq).2
        subst h1
        simp only [modifyAt, lookupSheetIdx, if_neg hw]
        rw [ih j (h2 ▸ hj)]
        rfl

theorem modifyAt_modifyAt (ws2 : Worksheet) (i : Nat) (l : List Worksheet) :
    modifyAt (fun _ => ws2) i (modifyAt (fun _ => ws2) i l)
      = modifyAt (fun _ => ws2) i l := by
  induction l generalizing i with
  | nil => cases i <;> rfl
  | cons w rest ih =>
      cases i with
      | zero => rfl
      | succ j => simp only [modifyAt]; rw [ih j]

theorem map_name_modifyAt (l : List Worksheet) (i : Nat) (ws ws2 : Worksheet)
    (hget : l.get? i = some ws) (hn : ws2.name = ws.name) :
    (modifyAt (fun _ => ws2) i l).map Worksheet.name = l.map Worksheet.name := by
  induction l generalizing i with
  | nil => simp [List.get?] at hget
  | cons w rest ih =>
      cases i with
      | zero =>
          simp only [List.get?, Option.some.injEq] at hget
          subst hget
          simp [modifyAt, hn]
      | succ j =>
          simp only [List.get?] at hget
          simp [modifyAt, ih j hget]

theorem lookupSheetIdx_none_not_mem (n : String) (l : List Worksheet)
    (h : lookupSheetIdx n l = none) : n ∉ l.map Worksheet.name := by
  induction l with
  | nil => simp
  | cons w rest ih =>
      by_cases hw : w.name = n
      · simp [lookupSheetIdx, hw] at h
      · simp only [lookupSheetIdx, if_neg hw, Option.map_eq_none'] at h
        simp only [List.map_cons, List.mem_cons, not_or]
        exact ⟨fun hh => hw hh.symm, ih h⟩

/- ------------------------------------------------------------------ -/
/- Helper lemmas: bounding box and full clear.                         -/
/- ------------------------------------------------------------------ -/

theorem le_foldl_max (cs : List (Pos × Cell)) (a : Nat) :
    a ≤ cs.foldl (fun m q => max m q.1.1) a := by
  induction cs generalizing a with
  | nil => exact Nat.le_refl a
  | cons pc rest ih =>
      exact le_trans (Nat.le_max_left a pc.1.1) (ih (max a pc.1.1))

theorem row_le_foldl_max (cs : List (Pos × Cell)) (a : Nat) (pc : Pos × Cell)
    (h : pc ∈ cs) : pc.1.1 ≤ cs.foldl (fun m q => max m q.1.1) a := by
  induction cs generalizing a with
  | nil => cases h
  | cons qc rest ih =>
      rcases List.mem_cons.mp h with h1 | h1
      · subst h1
        exact le_trans (Nat.le_max_right a pc.1.1) (le_foldl_max rest _)
      · exact ih _ h1

/-- With every stored row at least 1 (as in any openpyxl worksheet),
delete_rows(1, max_row) clears the sheet completely. -/
theorem deleteRows_maxRow_eq_nil (cs : List (Pos × Cell))
    (h1 : ∀ pc ∈ cs, 1 ≤ pc.1.1) :
    deleteRows cs 1 (maxRowAux cs) = [] := by
  unfold deleteRows
  have hfil : (cs.filter fun pc =>
      decide (pc.1.1 < 1) || decide (1 + maxRowAux cs ≤ pc.1.1)) = [] := by
    rw [List.filter_eq_nil_iff]
    intro pc hpc
    have hle : pc.1.1 ≤ maxRowAux cs := row_le_foldl_max cs 1 pc hpc
    have hge : 1 ≤ pc.1.1 := h1 pc hpc
    simp only [Bool.or_eq_true, decide_eq_true_eq, not_or]
    omega
  rw [hfil]
  rfl

/- ------------------------------------------------------------------ -/
/- Helper lemmas: the read loop and the operation boundary.            -/
/- ------------------------------------------------------------------ -/

theorem foldl_append_eq_filter (p : List (Option PlainVal) → Bool)
    (l : List (List (Option PlainVal))) (acc : List (List (Option PlainVal))) :
    l.foldl (fun acc row => if p row then acc ++ [row] else acc) acc
      = acc ++ l.filter p := by
  induction l generalizing acc with
  | nil => simp
  | cons r rest ih =>
      by_cases h : p r <;> simp [List.filter_cons, h, ih, List.append_assoc]

theorem readAllRows_eq_spec (ws : Worksheet) :
    readAllRows ws = specNonEmptyRows ws := by
  unfold readAllRows specNonEmptyRows
  rw [foldl_append_eq_filter]
  simp

theorem uniformShape_finish {α : Type} (d : Option Workbook)
    (b : Except String (α × Option Workbook)) : uniformShape (finish d b).1 := by
  cases b with
  | ok a =>
      obtain ⟨x, d2⟩ := a
      left
      simp [finish]
  | error e =>
      right
      simp [finish]

theorem finish_fail_disk_eq {α : Type} (d : Option Workbook)
    (b : Except String (α × Option Workbook))
    (h : (finish d b).1.success = false) : (finish d b).2 = d := by
  cases b with
  | ok a => obtain ⟨x, d2⟩ := a; simp [finish] at h
  | error e => rfl

theorem maps_const_replicate {α β : Type} (l : List α) (b : β) :
    l.map (fun _ => b) = List.replicate l.length b := by
  induction l with
  | nil => rfl
  | cons x rest ih => simp [List.replicate, ih]

/- ------------------------------------------------------------------ -/
/- Claim theorems.                                                     -/
/- ------------------------------------------------------------------ -/

/-- C4: every operation returns a result record of the uniform shape —
success true with an operation-specific payload, or success false with an
error message — and, the bodies being total with every raise caught at the
operation boundary, no failure propagates past it as an uncaught fault. -/
theorem operations_uniform_result_shape (d : Option Workbook) (sn rng : Option String)
    (n cr fs ct : String) (v : Option PlainVal) (data : List (List (Option PlainVal)))
    (hd : Option (List String)) (o : FormatOptions) (t pos : Option String) :
    uniformShape (read_excel_file d sn rng).1 ∧
    uniformShape (write_excel_file d data sn hd).1 ∧
    uniformShape (get_worksheet_info d).1 ∧
    uniformShape (add_worksheet d n).1 ∧
    uniformShape (update_cell d n cr v).1 ∧
    uniformShape (apply_formula d n cr fs).1 ∧
    uniformShape (format_cells d n cr o).1 ∧
    uniformShape (create_chart d n cr ct t pos).1 :=
  ⟨uniformShape_finish _ _, uniformShape_finish _ _, uniformShape_finish _ _,
   uniformShape_finish _ _, uniformShape_finish _ _, uniformShape_finish _ _,
   uniformShape_finish _ _, uniformShape_finish _ _⟩

/-- C5: every operation persists only as its final step, so a failing
operation aborts before the persist step and leaves the prior on-disk
container untouched — in particular a failing format_cells changes
nothing on disk (no partial-success state). -/
theorem failed_operation_leaves_disk_untouched (d : Option Workbook)
    (sn rng : Option String) (n cr fs ct : String) (v : Option PlainVal)
    (data : List (List (Option PlainVal))) (hd : Option (List String))
    (o : FormatOptions) (t pos : Option String) :
    ((read_excel_file d sn rng).1.success = false → (read_excel_file d sn rng).2 = d) ∧
    ((write_excel_file d data sn hd).1.success = false → (write_excel_file d data sn hd).2 = d) ∧
    ((get_worksheet_info d).1.success = false → (get_worksheet_info d).2 = d) ∧
    ((add_worksheet d n).1.success = false → (add_worksheet d n).2 = d) ∧
    ((update_cell d n cr v).1.success = false → (update_cell d n cr v).2 = d) ∧
    ((apply_formula d n cr fs).1.success = false → (apply_formula d n cr fs).2 = d) ∧
    ((format_cells d n cr o).1.success = false → (format_cells d n cr o).2 = d) ∧
    ((create_chart d n cr ct t pos).1.success = false → (create_chart d n cr ct t pos).2 = d) :=
  ⟨finish_fail_disk_eq d _, finish_fail_disk_eq d _, finish_fail_disk_eq d _,
   finish_fail_disk_eq d _, finish_fail_disk_eq d _, finish_fail_disk_eq d _,
   finish_fail_disk_eq d _, finish_fail_disk_eq d _⟩

/-- Witness for C5 at a concrete failing input: add_worksheet on a missing
file fails and the disk stays empty. -/
theorem failed_operation_leaves_disk_untouched_witness :
    (add_worksheet none "X").2 = none :=
  (failed_operation_leaves_disk_untouched none none none "X" "A1" "=1" "line" none
      [] none {} none none).2.2.2.1 (by decide)

/-- C10 (code bug): read_excel_file with the single-cell range "A1" does
not return [[value]] — worksheet["A1"] is a bare Cell, the comprehension
written for the single-row-or-cell branch iterates over that Cell and
raises TypeError, which the boundary converts into a failure result; the
same cell read through the one-cell rectangle "A1:A1" shows the intended
[[value]] shape. -/
theorem single_cell_range_read_fails :
    read_excel_file (some wbOne5) (some "S") (some "A1")
      = ({ success := false, error := some "TypeError: Cell object is not iterable",
           payload := none }, some wbOne5) ∧
    (read_excel_file (some wbOne5) (some "S") (some "A1:A1")).1.payload.map ReadOk.data
      = some [[some (PlainVal.num 5)]] := by
  decide

/-- Counterexample to C1 as stated: on a fresh sheet "S", format_cells
A1:A1 with bold, then with font size 14, leaves the cell NOT bold (the
second call replaces the whole font object); the claim predicts bold true
with size 14. -/
theorem format_font_replaced_counterexample :
    (styleAt diskAfterBoldThenSize "S" (1, 1)).map
        (fun s => (s.font.map Font.bold, s.font.bind Font.size))
      = some (some false, some 14) ∧
    ¬ ((styleAt diskAfterBoldThenSize "S" (1, 1)).map
        (fun s => (s.font.map Font.bold, s.font.bind Font.size))
      = some (some true, some 14)) := by
  decide

/-- Counterexample to C2 as stated: writing one row with NO sheet name to a
container whose active sheet "Sheet1" holds two rows does not clear the
sheet — reading back returns the leftover second row as well, not exactly
the newly written row. -/
theorem write_active_sheet_merge_counterexample :
    ((read_excel_file
        (write_excel_file (some wbCol2) [[some (PlainVal.num 9)]] none none).2
        none none).1.payload.map ReadOk.data)
      = some [[some (PlainVal.num 9)], [some (PlainVal.num 2)]] ∧
    ¬ (((read_excel_file
        (write_excel_file (some wbCol2) [[some (PlainVal.num 9)]] none none).2
        none none).1.payload.map ReadOk.data)
      = some [[some (PlainVal.num 9)]]) := by
  decide

/-- Counterexample to C3 as stated: A1 holds a formula with no cached
computed value and A2 holds 7; the data_only read shows A1 as empty — its
whole row is therefore skipped — instead of returning the literal formula
text the claim predicts. -/
theorem formula_read_no_cache_counterexample :
    ((read_excel_file (some wbFormula) (some "S") none).1.payload.map ReadOk.data)
      = some [[some (PlainVal.num 7)]] ∧
    ¬ (((read_excel_file (some wbFormula) (some "S") none).1.payload.map ReadOk.data)
      = some [[some (PlainVal.str "=SUM(B1:B2)")], [some (PlainVal.num 7)]]) := by
  decide

/-- Counterexample to C6 as stated: with A1=1, B1=2, C1=3, reading "C1:A1"
yields one empty row — the endpoints are not swapped, so the resolved
rectangle holds no cells — while "A1:C1" yields the full row; the two
references do not behave the same. -/
theorem inverted_range_counterexample :
    ((read_excel_file (some wbRow3) (some "S") (some "C1:A1")).1.payload.map ReadOk.data)
      = some [[]] ∧
    ((read_excel_file (some wbRow3) (some "S") (some "A1:C1")).1.payload.map ReadOk.data)
      = some [[some (PlainVal.num 1), some (PlainVal.num 2), some (PlainVal.num 3)]] ∧
    ¬ (((read_excel_file (some wbRow3) (some "S") (some "C1:A1")).1.payload.map ReadOk.data)
      = ((read_excel_file (some wbRow3) (some "S") (some "A1:C1")).1.payload.map ReadOk.data)) := by
  decide

/-- C3 (amended): reading a formula cell through the data_only view returns
its last cached computed value when one is present and otherwise shows the
cell as empty — never the literal formula text, and the engine computes no
result itself. -/
theorem formula_cell_read_cached_or_empty (ws : Worksheet) (p : Pos) (t : String)
    (cv : Option PlainVal) (h : (getCellD ws.cells p).val = CellVal.formula t cv) :
    readCellVal ws p = cv ∧
    (cv = none → readCellVal ws p ≠ some (PlainVal.str t)) := by
  have h1 : readCellVal ws p = cv := by
    unfold readCellVal
    rw [h]
    rfl
  refine ⟨h1, fun hn => ?_⟩
  rw [h1, hn]
  simp

/-- Witness for C3 at the concrete formula cell of wsFormula. -/
theorem formula_cell_read_cached_or_empty_witness :
    readCellVal wsFormula (1, 1) = none ∧
    ((none : Option PlainVal) = none →
      readCellVal wsFormula (1, 1) ≠ some (PlainVal.str "=SUM(B1:B2)")) :=
  formula_cell_read_cached_or_empty wsFormula (1, 1) "=SUM(B1:B2)" none (by decide)

/-- C8: a read without a range argument returns exactly the worksheet rows
containing at least one non-empty cell, in row order, omitting every
fully-empty row — interior ones as well as trailing ones — both for a
named sheet and for the active sheet. -/
theorem read_all_rows_skips_empty (wb : Workbook) (n : String) (ws wsA : Worksheet) :
    (getSheetByName n wb = some ws →
      (read_excel_file (some wb) (some n) none).1.success = true ∧
      (read_excel_file (some wb) (some n) none).1.payload.map ReadOk.data
        = some (specNonEmptyRows ws)) ∧
    (wb.sheets[wb.active]? = some wsA →
      (read_excel_file (some wb) none none).1.success = true ∧
      (read_excel_file (some wb) none none).1.payload.map ReadOk.data
        = some (specNonEmptyRows wsA)) := by
  constructor
  · intro hs
    simp [read_excel_file, read_body, sheetSelect, hs, rangeData, finish,
      readAllRows_eq_spec]
  · intro ha
    simp [read_excel_file, read_body, sheetSelect, ha, rangeData, finish,
      readAllRows_eq_spec]

/-- Witness for C8 on wbFormula, whose first row is non-empty in storage
but fully empty under the data_only view and is therefore skipped. -/
theorem read_all_rows_skips_empty_witness :
    ((read_excel_file (some wbFormula) (some "S") none).1.success = true ∧
      (read_excel_file (some wbFormula) (some "S") none).1.payload.map ReadOk.data
        = some (specNonEmptyRows wsFormula)) ∧
    ((read_excel_file (some wbFormula) none none).1.success = true ∧
      (read_excel_file (some wbFormula) none none).1.payload.map ReadOk.data
        = some (specNonEmptyRows wsFormula)) :=
  ⟨(read_all_rows_skips_empty wbFormula "S" wsFormula wsFormula).1 (by decide),
   (read_all_rows_skips_empty wbFormula "S" wsFormula wsFormula).2 (by decide)⟩

/-- C6 (amended): a rectangular reference written end-before-start in
column order is not rejected — it parses, the endpoints are kept exactly
as written (no swap), and the resolved rectangle contains no cells, so a
read succeeds and returns one empty row per row of the span; it does NOT
behave like the reference written the other way round. -/
theorem inverted_range_empty_not_swapped (wb : Workbook) (n rng : String)
    (ws : Worksheet) (r1 c1 r2 c2 : Nat)
    (hs : getSheetByName n wb = some ws)
    (hr : getItem rng = Except.ok (RangeCells.rows (iterRowsPos r1 r2 c1 c2)))
    (hc : c2 < c1) :
    (read_excel_file (some wb) (some n) (some rng)).1.success = true ∧
    (read_excel_file (some wb) (some n) (some rng)).1.payload.map ReadOk.data
      = some (List.replicate (r2 + 1 - r1) []) := by
  have hcount : c2 + 1 - c1 = 0 := Nat.sub_eq_zero_of_le hc
  have hrows : iterRowsPos r1 r2 c1 c2 = List.replicate (r2 + 1 - r1) [] := by
    unfold iterRowsPos
    rw [hcount]
    have : List.range' c1 0 = [] := rfl
    rw [this]
    simp only [List.map_nil]
    rw [maps_const_replicate, List.length_range']
  have hdata : (iterRowsPos r1 r2 c1 c2).map (fun row => row.map (readCellVal ws))
      = List.replicate (r2 + 1 - r1) [] := by
    rw [hrows, List.map_replicate]
    rfl
  constructor
  · simp [read_excel_file, read_body, sheetSelect, hs, rangeData, hr, finish]
  · simp [read_excel_file, read_body, sheetSelect, hs, rangeData, hr, finish, hdata]

/-- Witness for C6 at the concrete inverted reference "C1:A1" on wbRow3. -/
theorem inverted_range_empty_not_swapped_witness :
    (read_excel_file (some wbRow3) (some "S") (some "C1:A1")).1.success = true ∧
    (read_excel_file (some wbRow3) (some "S") (some "C1:A1")).1.payload.map ReadOk.data
      = some (List.replicate (1 + 1 - 1) []) :=
  inverted_range_empty_not_swapped wbRow3 "S" "C1:A1" wsRow3 1 3 1 1
    (by decide) (by rfl) (by decide)

/-- C1 (amended): a successful format_cells styles every cell of the
resolved rectangle as follows — when any font option (bold, italic,
font_size, font_color) is present the cell font is replaced wholesale by a
font built from the present font options alone (absent font fields fall to
their defaults, so earlier font state such as bold is lost), while the
fill and the number format, which live outside the font object, are
preserved unless their own option is present. -/
theorem format_cells_font_replaced_fields_preserved (wb : Workbook) (n rng : String)
    (o : FormatOptions) (i : Nat) (ws : Worksheet) (rs : List (List Pos)) (p : Pos)
    (hs : lookupSheetIdx n wb.sheets = some (i, ws))
    (hr : getItem rng = Except.ok (RangeCells.rows rs))
    (hp : p ∈ rs.flatten) :
    (format_cells (some wb) n rng o).1.success = true ∧
    styleAt (format_cells (some wb) n rng o).2 n p
      = some (applyFormatCell o (getCellD ws.cells p)).style ∧
    (applyFormatCell o (getCellD ws.cells p)).style
      = { font := match fontFromOptions o with
                  | some f => some f
                  | none => (getCellD ws.cells p).style.font
          fill := match fillFromOptions o with
                  | some b => some b
                  | none => (getCellD ws.cells p).style.fill
          numberFormat := if truthyS o.number_format then o.number_format
                          else (getCellD ws.cells p).style.numberFormat } := by
  have hname : ws.name = n := lookupSheetIdx_name n wb.sheets i ws hs
  have hws2 : lookupSheetIdx n (modifyAt
      (fun _ => { ws with cells := applyRange (applyFormatCell o) rs.flatten ws.cells })
      i wb.sheets)
      = some (i, { ws with cells := applyRange (applyFormatCell o) rs.flatten ws.cells }) :=
    lookupSheetIdx_modifyAt n wb.sheets i ws _ hs hname
  refine ⟨?_, ?_, rfl⟩
  · simp [format_cells, format_body, hs, hr, finish]
  · simp only [format_cells, format_body, hs, hr, finish]
    unfold styleAt getSheetByName
    simp only [Option.bind_eq_bind, Option.some_bind]
    rw [hws2]
    simp only [Option.map_some', Option.some_bind]
    rw [lookupCell_applyRange_mem (applyFormatCell o) (applyFormatCell_idem o)
      rs.flatten p hp ws.cells]
    rfl

/-- Witness for C1: a cell already bold receives font_size 14; the style
afterwards has a font built from the size option alone (not bold). -/
theorem format_cells_font_replaced_fields_preserved_witness :
    (format_cells (some wbBold) "S" "A1:A1" { font_size := some 14 }).1.success = true ∧
    styleAt (format_cells (some wbBold) "S" "A1:A1" { font_size := some 14 }).2 "S" (1, 1)
      = some (applyFormatCell { font_size := some 14 } (getCellD wsBold.cells (1, 1))).style ∧
    (applyFormatCell { font_size := some 14 } (getCellD wsBold.cells (1, 1))).style
      = { font := match fontFromOptions { font_size := some 14 } with
                  | some f => some f
                  | none => (getCellD wsBold.cells (1, 1)).style.font
          fill := match fillFromOptions { font_size := some 14 } with
                  | some b => some b
                  | none => (getCellD wsBold.cells (1, 1)).style.fill
          numberFormat :=
            if truthyS ({ font_size := some 14 } : FormatOptions).number_format
            then ({ font_size := some 14 } : FormatOptions).number_format
            else (getCellD wsBold.cells (1, 1)).style.numberFormat } :=
  format_cells_font_replaced_fields_preserved wbBold "S" "A1:A1"
    { font_size := some 14 } 0 wsBold [[(1, 1)]] (1, 1) (by rfl) (by rfl) (by decide)

/-- C2 (amended): the full clear of the prior row span happens exactly in
the named-sheet branch — when a sheet name is given and that sheet already
exists, the whole span 1..max_row is cleared before writing, so the sheet
afterwards holds exactly the cells built from the new headers and rows,
independent of all prior content. (When no sheet name is given the active
sheet is NOT cleared and new rows merge over the old ones, see the
counterexample.) -/
theorem write_named_existing_sheet_full_overwrite (wb : Workbook) (n : String)
    (data : List (List (Option PlainVal))) (headers : Option (List String))
    (i : Nat) (ws : Worksheet)
    (hs : lookupSheetIdx n wb.sheets = some (i, ws))
    (hwf : ∀ pc ∈ ws.cells, 1 ≤ pc.1.1)
    (hne : data ≠ []) :
    (write_excel_file (some wb) data (some n) headers).1.success = true ∧
    cellsAt (write_excel_file (some wb) data (some n) headers).2 n
      = some (writeAllCells headers data []) := by
  have hemp : data.isEmpty = false := by
    cases data with
    | nil => exact absurd rfl hne
    | cons a b => rfl
  have hname : ws.name = n := lookupSheetIdx_name n wb.sheets i ws hs
  have hdel : deleteRows ws.cells 1 ws.maxRow = [] :=
    deleteRows_maxRow_eq_nil ws.cells hwf
  have hws2 : lookupSheetIdx n (modifyAt (fun _ => { ws with cells := writeAllCells headers data (deleteRows ws.cells 1 ws.maxRow) }) i wb.sheets) = some (i, { ws with cells := writeAllCells headers data (deleteRows ws.cells 1 ws.maxRow) }) :=
    lookupSheetIdx_modifyAt n wb.sheets i ws _ hs hname
  constructor
  · simp [write_excel_file, write_body, hemp, baseWorkbook, hs, finish]
  · simp only [write_excel_file, write_body, hemp, baseWorkbook, hs, finish,
      Bool.false_eq_true, if_false]
    unfold cellsAt getSheetByName
    simp only [Option.bind_eq_bind, Option.some_bind]
    rw [hws2]
    simp only [Option.map_some']
    rw [hdel]

/-- Witness for C2: overwriting the existing 2-row sheet "Sheet1" by name
with one new row leaves exactly the cells of the new row. -/
theorem write_named_existing_sheet_full_overwrite_witness :
    (write_excel_file (some wbCol2) [[some (PlainVal.num 9)]] (some "Sheet1") none).1.success
      = true ∧
    cellsAt (write_excel_file (some wbCol2) [[some (PlainVal.num 9)]] (some "Sheet1") none).2
      "Sheet1" = some (writeAllCells none [[some (PlainVal.num 9)]] []) :=
  write_named_existing_sheet_full_overwrite wbCol2 "Sheet1"
    [[some (PlainVal.num 9)]] none 0 wsCol2 (by rfl) (by decide) (by decide)

/-- C7: worksheet names are unique (exact, case-sensitive comparison) and
the operations preserve this — add_worksheet with a present name fails
with the duplicate-sheet error leaving the workbook unchanged, and neither
a successful add_worksheet nor any write creates a second sheet with an
existing name. -/
theorem worksheet_names_unique_invariant (wb : Workbook) (n : String)
    (hnd : (sheetNames wb).Nodup) :
    (n ∈ sheetNames wb →
      add_worksheet (some wb) n
        = ({ success := false, error := some "Worksheet already exists",
             payload := none }, some wb)) ∧
    (namesOnDisk (add_worksheet (some wb) n).2).Nodup ∧
    (∀ (data : List (List (Option PlainVal))) (sn : Option String)
        (hd : Option (List String)),
      (namesOnDisk (write_excel_file (some wb) data sn hd).2).Nodup) := by
  refine ⟨?_, ?_, ?_⟩
  · intro hmem
    simp [add_worksheet, add_body, hmem, finish]
  · by_cases hmem : n ∈ sheetNames wb
    · simp [add_worksheet, add_body, hmem, finish, namesOnDisk, hnd]
    · simp only [add_worksheet, add_body, if_neg hmem, finish, namesOnDisk]
      simp only [sheetNames, List.map_append, List.map_cons, List.map_nil]
      refine List.Nodup.append hnd (List.nodup_singleton n) ?_
      intro a ha hb
      simp only [List.mem_singleton] at hb
      subst hb
      exact hmem ha
  · intro data sn hd
    by_cases hemp : data.isEmpty = true
    · simp [write_excel_file, write_body, hemp, finish, namesOnDisk, hnd]
    · rw [Bool.not_eq_true] at hemp
      cases sn with
      | some n0 =>
          cases h1 : lookupSheetIdx n0 wb.sheets with
          | some iws =>
              obtain ⟨i, ws⟩ := iws
              have hget := lookupSheetIdx_get n0 wb.sheets i ws h1
              simp only [write_excel_file, write_body, hemp, baseWorkbook, h1,
                finish, namesOnDisk, sheetNames, Bool.false_eq_true, if_false]
              rw [map_name_modifyAt wb.sheets i ws
                { ws with cells := writeAllCells hd data (deleteRows ws.cells 1 ws.maxRow) }
                hget rfl]
              exact hnd
          | none =>
              have hnm := lookupSheetIdx_none_not_mem n0 wb.sheets h1
              simp only [write_excel_file, write_body, hemp, baseWorkbook, h1,
                finish, namesOnDisk, sheetNames, Bool.false_eq_true, if_false,
                List.map_append, List.map_cons, List.map_nil]
              refine List.Nodup.append hnd (List.nodup_singleton n0) ?_
              intro a ha hb
              simp only [List.mem_singleton] at hb
              subst hb
              exact hnm ha
      | none =>
          cases h1 : wb.sheets[wb.active]? with
          | some ws =>
              have hget : wb.sheets.get? wb.active = some ws := by
                rw [List.get?_eq_getElem?]
                exact h1
              simp only [write_excel_file, write_body, hemp, baseWorkbook,
                finish, namesOnDisk, sheetNames, Bool.false_eq_true, if_false, hget]
              rw [map_name_modifyAt wb.sheets wb.active ws
                { ws with cells := writeAllCells hd data ws.cells } hget rfl]
              exact hnd
          | none =>
              simp [write_excel_file, write_body, hemp, baseWorkbook, h1,
                finish, namesOnDisk, hnd]

/-- Witness for C7: adding "S" to wbRow3, which already has a sheet "S",
fails with the duplicate error and leaves the container unchanged. -/
theorem worksheet_names_unique_invariant_witness :
    add_worksheet (some wbRow3) "S"
      = ({ success := false, error := some "Worksheet already exists",
           payload := none }, some wbRow3) ∧
    (namesOnDisk (add_worksheet (some wbRow3) "S").2).Nodup :=
  ⟨(worksheet_names_unique_invariant wbRow3 "S" (by decide)).1 (by decide),
   (worksheet_names_unique_invariant wbRow3 "S" (by decide)).2.1⟩

/-- C9: format_cells is idempotent — calling it twice in succession with
the same path, sheet, range and options returns the same result and leaves
the same on-disk container as calling it once. -/
theorem format_cells_idempotent (d : Option Workbook) (n rng : String)
    (o : FormatOptions) :
    format_cells (format_cells d n rng o).2 n rng o = format_cells d n rng o := by
  cases d with
  | none => rfl
  | some wb =>
      cases h1 : lookupSheetIdx n wb.sheets with
      | none => simp [format_cells, format_body, h1, finish]
      | some iws =>
          obtain ⟨i, ws⟩ := iws
          cases h2 : getItem rng with
          | error e => simp [format_cells, format_body, h1, h2, finish]
          | ok rc =>
              cases rc with
              | single p => simp [format_cells, format_body, h1, h2, finish]
              | rows rs =>
                  have hname : ws.name = n := lookupSheetIdx_name n wb.sheets i ws h1
                  have h3 : lookupSheetIdx n (modifyAt (fun _ => { ws with cells := applyRange (applyFormatCell o) rs.flatten ws.cells }) i wb.sheets) = some (i, { ws with cells := applyRange (applyFormatCell o) rs.flatten ws.cells }) :=
                    lookupSheetIdx_modifyAt n wb.sheets i ws _ h1 hname
                  simp only [format_cells, format_body, h1, h2, finish]
                  simp only [h3, h2]
                  simp only [applyRange_idem (applyFormatCell o) (applyFormatCell_idem o)]
                  rw [modifyAt_modifyAt]

end XSpread
